import Mathlib

/-!
Verification of the transparent-recall core (`TransRecall.cc`, `DataBase.cc`)
of the LTFS Data Management server.

The development is a shallow embedding: the C++ functions are translated into
executable Lean functions over explicit state.  External collaborators
(filesystem connector, `FsObj` operations, tape device reads, the inventory)
are supplied as oracle inputs, so that each code path of the source is a
computable branch of the model.  SQL statements whose text lives in
`SQLStatements.cc` (not part of the extracted source) are modelled from the
specification; each such definition carries a doc comment saying so.

Machine integers: sizes and offsets (`off_t`, `long`, `unsigned long`) stay
far below their overflow bounds in every scenario the claims quantify over,
so they are embedded as `Nat`/`Int` without wrap-around.  `read(2)` results
are `Int` (the code compares against `-1` and `0`).
-/

/-- File migration states of `FsObj::file_state` used by transparent recall. -/
inductive FileState where
  | RESIDENT
  | PREMIGRATED
  | MIGRATED
  | RECALLING_MIG
  | RECALLING_PREMIG
deriving DecidableEq, Repr

/-- Request states `DataBase::req_state`. -/
inductive ReqState where
  | REQ_NEW
  | REQ_INPROGRESS
  | REQ_COMPLETED
deriving DecidableEq, Repr

/-- Operation kinds `DataBase::operation`. -/
inductive Operation where
  | TRARECALL
  | SELRECALL
  | MIGRATION
deriving DecidableEq, Repr

/-- The file uid `fuid_t`: `(fsid_h, fsid_l, igen, inum)`. -/
structure FUid where
  fsid_h : Nat
  fsid_l : Nat
  igen : Nat
  inum : Nat
deriving DecidableEq, Repr

/-- `Connector::rec_info_t`.  `conn_info` is an opaque pointer passed back when
responding; the code compares it against `NULL`, embedded here as `0`. -/
structure RecInfo where
  fuid : FUid
  filename : String
  toresident : Bool
  conn_info : Nat
deriving DecidableEq, Repr

/-- One row of `JOB_QUEUE`, with the columns bound by `TransRecall::ADD_JOB`
(order as in the `CREATE TABLE JOB_QUEUE` statement of `DataBase.cc`). -/
structure JobRow where
  operation : Operation
  file_name : Option String
  req_num : Int
  target_state : FileState
  repl_num : Int
  file_size : Nat
  fsid_h : Nat
  fsid_l : Nat
  igen : Nat
  inum : Nat
  mtime_sec : Int
  mtime_nsec : Int
  last_upd : Int
  tape_id : String
  file_state : FileState
  start_block : Int
  conn_info : Nat
deriving DecidableEq, Repr

/-- One row of `REQUEST_QUEUE`, restricted to the columns bound by
`TransRecall::ADD_REQUEST` (operation, req_num, tape_id, time_added, state). -/
structure ReqRow where
  operation : Operation
  req_num : Int
  tape_id : String
  time_added : Int
  state : ReqState
deriving DecidableEq, Repr

/-- The embedded store: the two tables used by transparent recall. -/
structure DB where
  jobs : List JobRow
  requests : List ReqRow
deriving DecidableEq, Repr

/-- Observable effects of the transparent-recall code: responses delivered to
the connector, file finalisation, and scheduler condition signalling. -/
inductive Effect where
  | respond (r : RecInfo) (success : Bool)
  | finishRec (st : FileState)
  | signal
  | resetReq (reqNum : Int) (tapeId : String)
  | deleteReq (reqNum : Int) (tapeId : String)
deriving DecidableEq, Repr

/-- `Const::UNSET`, bound into the `REPL_NUM` column by `ADD_JOB`.  The
concrete value lives in `Const.h` (outside the extracted source) and is
irrelevant to every claim; any fixed integer is faithful. -/
def replUNSET : Int := -1

/-! ## DataBase::fits -/

/-- Result of one call of the user-defined SQLite function `FITS`:
the value given to `sqlite3_result_int` and the final contents of the three
output cells `*free`, `*num_found`, `*total`. -/
structure FitsResult where
  ret : Int
  free : Nat
  num_found : Nat
  total : Nat
deriving DecidableEq, Repr

/-- `DataBase::fits` (DataBase.cc): `size`, `*free`, `*num_found`, `*total`
are `unsigned long`; the branch is `*free >= size`. -/
def fits (size free num_found total : Nat) : FitsResult :=
  if size ≤ free then
    { ret := 1, free := free - size, num_found := num_found + 1, total := total + 1 }
  else
    { ret := 0, free := free, num_found := num_found, total := total + 1 }

/-- C10: on every call of `FITS`, `*total` is incremented; if `*free >= size`
then `*free` drops by `size`, `*num_found` is incremented and the function
returns 1; otherwise `*free` and `*num_found` are unchanged and it returns 0. -/
theorem fits_spec (size free num_found total : Nat) :
    (fits size free num_found total).total = total + 1 ∧
    (size ≤ free →
      (fits size free num_found total).ret = 1 ∧
      (fits size free num_found total).free = free - size ∧
      (fits size free num_found total).num_found = num_found + 1) ∧
    (free < size →
      (fits size free num_found total).ret = 0 ∧
      (fits size free num_found total).free = free ∧
      (fits size free num_found total).num_found = num_found) := by
  unfold fits
  by_cases h : size ≤ free <;> simp [h]

/-- Witness for `fits_spec` at concrete inputs on both branches. -/
theorem fits_spec_witness :
    ((fits 3 10 0 0).ret = 1 ∧ (fits 3 10 0 0).free = 7 ∧
      (fits 3 10 0 0).num_found = 1 ∧ (fits 3 10 0 0).total = 1) ∧
    ((fits 9 2 5 6).ret = 0 ∧ (fits 9 2 5 6).free = 2 ∧
      (fits 9 2 5 6).num_found = 5 ∧ (fits 9 2 5 6).total = 7) := by
  refine ⟨?_, ?_⟩
  · obtain ⟨h1, h2, _⟩ := fits_spec 3 10 0 0
    obtain ⟨r, f, n⟩ := h2 (by decide)
    exact ⟨r, f, n, h1⟩
  · obtain ⟨h1, _, h3⟩ := fits_spec 9 2 5 6
    obtain ⟨r, f, n⟩ := h3 (by decide)
    exact ⟨r, f, n, h1⟩

/-! ## TransRecall::recall -/

/-- Oracle for the external calls made by one execution of
`TransRecall::recall` on one file:

* `targetOk`: the `FsObj` constructor, the advisory lock and `getMigState`
  succeed (any of them throwing lands in the catch-all at the bottom);
* `curstate`: the live migration state returned by `target.getMigState()`;
* `openOk`: `open(tapeName, ...)` returns a valid descriptor;
* `fstatOk`: `fstat(fd, &statbuf_tape) == 0`;
* `fileSize` / `tapeSize`: `target.stat().st_size` and
  `statbuf_tape.st_size`;
* `prepOk`: `target.prepareRecall()` does not throw;
* `readAt pos`: the result of `read(fd, buffer, READ_BUFFER_SIZE)` when the
  tape file position is `pos` (the position always equals the current write
  offset, since every read so far was fully consumed);
* `writeAt pos r`: the result of `target.write(offset, rsize, buffer)`;
* `forcedAt i`: the value of `Server::forcedTerminate` sampled at the top of
  the i-th copy-loop iteration;
* `finishOk`: `target.finishRecall` (and `remAttribute` when applicable)
  succeed. -/
structure RecallEnv where
  targetOk : Bool
  curstate : FileState
  openOk : Bool
  fstatOk : Bool
  fileSize : Nat
  tapeSize : Nat
  prepOk : Bool
  readAt : Nat → Int
  writeAt : Nat → Int → Int
  forcedAt : Nat → Bool
  finishOk : Bool

/-- The byte count governing the copy loop: `statbuf.st_size` after the
size-mismatch adjustment of TransRecall.cc lines 366-376 (the tape size is
trusted whenever `fstat` succeeded and the two sizes disagree). -/
def effSize (env : RecallEnv) : Nat :=
  if env.fstatOk && env.tapeSize != env.fileSize then env.tapeSize else env.fileSize

/-- The `while (offset < statbuf.st_size)` copy loop of `TransRecall::recall`
(lines 380-402).  Arguments: fuel (the loop terminates in the source because
`offset` strictly grows; the claims are proved for sufficient fuel), current
`offset`, and the number of `read` calls performed so far (also the iteration
index at which `Server::forcedTerminate` is sampled).  Result: (loop left
without throwing, final `offset`, total number of `read` calls). -/
def copyLoop (env : RecallEnv) (size : Nat) : Nat → Nat → Nat → Bool × Nat × Nat
  | fuel, offset, nreads =>
    if size ≤ offset then (true, offset, nreads)
    else
      match fuel with
      | 0 => (false, offset, nreads)
      | fuel + 1 =>
        if env.forcedAt nreads then (false, offset, nreads)
        else
          let rsize := env.readAt offset
          if rsize = 0 then (true, offset, nreads + 1)
          else if rsize = -1 then (false, offset, nreads + 1)
          else if env.writeAt offset rsize ≠ rsize then (false, offset, nreads + 1)
          else copyLoop env size fuel (offset + rsize.toNat) (nreads + 1)

/-- Observable outcome of one `TransRecall::recall` call: whether it returned
normally (`processFiles` records `succeeded = true`), the final copy offset,
the number of tape reads, the number of size-mismatch warnings logged, the
state passed to `target.finishRecall` (if reached), and whether
`target.remAttribute()` ran. -/
structure RecallResult where
  success : Bool
  bytesCopied : Nat
  readsDone : Nat
  warnings : Nat
  finalized : Option FileState
  remAttrDone : Bool
deriving DecidableEq, Repr

/-- `TransRecall::recall` (TransRecall.cc lines 323-418).  `state` is the
caller's recalling flavour; lines 346-349 overwrite it with the live state
`curstate`, so the branch structure below tests `env.curstate`.  Any throw
inside the `try` block is caught at line 410 and re-thrown as
`Error::GENERAL_ERROR`, i.e. `success := false`. -/
def recallJob (env : RecallEnv) (state toState : FileState) (fuel : Nat) : RecallResult :=
  if !env.targetOk then
    { success := false, bytesCopied := 0, readsDone := 0, warnings := 0,
      finalized := none, remAttrDone := false }
  else
    -- lines 346-349: state := curstate when they differ (so st = curstate either way)
    let st := if env.curstate ≠ state then env.curstate else state
    if st = FileState.RESIDENT then
      -- line 350-351: `return 0` before finishRecall
      { success := true, bytesCopied := 0, readsDone := 0, warnings := 0,
        finalized := none, remAttrDone := false }
    else if st = FileState.MIGRATED then
      if !env.openOk then
        { success := false, bytesCopied := 0, readsDone := 0, warnings := 0,
          finalized := none, remAttrDone := false }
      else
        let mismatch := env.fstatOk && env.tapeSize != env.fileSize
        let size := effSize env
        let toSt := if mismatch then FileState.RESIDENT else toState
        let w := if mismatch then 1 else 0
        if !env.prepOk then
          { success := false, bytesCopied := 0, readsDone := 0, warnings := w,
            finalized := none, remAttrDone := false }
        else
          let r := copyLoop env size fuel 0 0
          if !r.1 then
            { success := false, bytesCopied := r.2.1, readsDone := r.2.2, warnings := w,
              finalized := none, remAttrDone := false }
          else if !env.finishOk then
            { success := false, bytesCopied := r.2.1, readsDone := r.2.2, warnings := w,
              finalized := none, remAttrDone := false }
          else
            { success := true, bytesCopied := r.2.1, readsDone := r.2.2, warnings := w,
              finalized := some toSt, remAttrDone := toSt = FileState.RESIDENT }
    else
      -- premigrated (or already-recalling) flavour: no tape I/O, straight to finishRecall
      if !env.finishOk then
        { success := false, bytesCopied := 0, readsDone := 0, warnings := 0,
          finalized := none, remAttrDone := false }
      else
        { success := true, bytesCopied := 0, readsDone := 0, warnings := 0,
          finalized := some toState, remAttrDone := toState = FileState.RESIDENT }

/-! ## Copy-loop lemmas -/

theorem copyLoop_base (env : RecallEnv) (size fuel offset nreads : Nat)
    (h : size ≤ offset) :
    copyLoop env size fuel offset nreads = (true, offset, nreads) := by
  cases fuel <;> (conv_lhs => rw [copyLoop]) <;> simp [h]

theorem copyLoop_succ (env : RecallEnv) (size f offset nreads : Nat)
    (h : offset < size) :
    copyLoop env size (f + 1) offset nreads =
      if env.forcedAt nreads then (false, offset, nreads)
      else
        let rsize := env.readAt offset
        if rsize = 0 then (true, offset, nreads + 1)
        else if rsize = -1 then (false, offset, nreads + 1)
        else if env.writeAt offset rsize ≠ rsize then (false, offset, nreads + 1)
        else copyLoop env size f (offset + rsize.toNat) (nreads + 1) := by
  conv_lhs => rw [copyLoop]
  simp [Nat.not_le.mpr h]

/-- With a well-behaved tape (each read at position `pos < size` returns
`min READ_BUFFER_SIZE (size - pos)` bytes), complete writes and no forced
termination, the copy loop finishes with `offset = size`. -/
theorem copyLoop_complete (env : RecallEnv) (B size : Nat) (hB : 1 ≤ B)
    (hread : ∀ pos, pos < size → env.readAt pos = ((min B (size - pos) : Nat) : Int))
    (hwrite : ∀ pos r, env.writeAt pos r = r)
    (hforce : ∀ i, env.forcedAt i = false) :
    ∀ fuel offset nreads, offset ≤ size → size - offset ≤ fuel →
      ∃ nr, copyLoop env size fuel offset nreads = (true, size, nr) := by
  intro fuel
  induction fuel with
  | zero =>
    intro offset nreads h1 h2
    have heq : offset = size := by omega
    exact ⟨nreads, by rw [copyLoop_base env size 0 offset nreads (by omega), heq]⟩
  | succ f ih =>
    intro offset nreads h1 h2
    by_cases hge : size ≤ offset
    · have heq : offset = size := le_antisymm h1 hge
      exact ⟨nreads, by rw [copyLoop_base env size (f + 1) offset nreads hge, heq]⟩
    · have hlt : offset < size := Nat.lt_of_not_le hge
      have hmin1 : 1 ≤ min B (size - offset) := le_min hB (by omega)
      have hminr : min B (size - offset) ≤ size - offset := min_le_right _ _
      have h0 : ((min B (size - offset) : Nat) : Int) ≠ 0 := by
        exact_mod_cast Nat.one_le_iff_ne_zero.mp hmin1
      have hn1 : ((min B (size - offset) : Nat) : Int) ≠ -1 := by
        have : (0 : Int) ≤ ((min B (size - offset) : Nat) : Int) := Int.natCast_nonneg _
        omega
      rw [copyLoop_succ env size f offset nreads hlt]
      simp only [hforce, hread offset hlt, hwrite, Bool.false_eq_true, if_false,
        ne_eq, not_true_eq_false, h0, hn1, Int.toNat_natCast]
      exact ih (offset + min B (size - offset)) (nreads + 1) (by omega) (by omega)

theorem recallJob_st (env : RecallEnv) (state : FileState) :
    (if env.curstate ≠ state then env.curstate else state) = env.curstate := by
  by_cases h : env.curstate = state <;> simp [h]

/-- C4: tape size mismatch.  When the job's file is migrated, the tape
object's `fstat` succeeds and reports a size different from the file's size,
and the copy itself runs undisturbed (well-behaved reads, complete writes,
no forced termination, working finalisation), `TransRecall::recall` copies
exactly the tape's size in bytes, logs exactly one warning, finalises the
file to `RESIDENT` whatever target state the event requested, and the job
succeeds. -/
theorem recall_size_mismatch (env : RecallEnv) (state toState : FileState) (B fuel : Nat)
    (htgt : env.targetOk = true)
    (hcur : env.curstate = FileState.MIGRATED)
    (hopen : env.openOk = true)
    (hfstat : env.fstatOk = true)
    (hne : env.tapeSize ≠ env.fileSize)
    (hprep : env.prepOk = true)
    (hfin : env.finishOk = true)
    (hB : 1 ≤ B)
    (hread : ∀ pos, pos < env.tapeSize →
      env.readAt pos = ((min B (env.tapeSize - pos) : Nat) : Int))
    (hwrite : ∀ pos r, env.writeAt pos r = r)
    (hforce : ∀ i, env.forcedAt i = false)
    (hfuel : env.tapeSize ≤ fuel) :
    (recallJob env state toState fuel).success = true ∧
    (recallJob env state toState fuel).bytesCopied = env.tapeSize ∧
    (recallJob env state toState fuel).warnings = 1 ∧
    (recallJob env state toState fuel).finalized = some FileState.RESIDENT ∧
    (recallJob env state toState fuel).remAttrDone = true := by
  have hbne : (env.tapeSize != env.fileSize) = true := by simp [bne_iff_ne, hne]
  have heff : effSize env = env.tapeSize := by simp [effSize, hfstat, hbne]
  obtain ⟨nr, hloop⟩ := copyLoop_complete env B env.tapeSize hB hread hwrite hforce
    fuel 0 0 (Nat.zero_le _) (by omega)
  unfold recallJob
  rw [recallJob_st]
  simp [htgt, hcur, hopen, hfstat, hbne, hprep, hfin, heff, hloop]

/-- Concrete oracle exercising the size-mismatch path: file size 1, tape
size 3, reads of at most 2 bytes. -/
def mismatchEnv : RecallEnv where
  targetOk := true
  curstate := FileState.MIGRATED
  openOk := true
  fstatOk := true
  fileSize := 1
  tapeSize := 3
  prepOk := true
  readAt := fun pos => ((min 2 (3 - pos) : Nat) : Int)
  writeAt := fun _ r => r
  forcedAt := fun _ => false
  finishOk := true

/-- Witness for `recall_size_mismatch`: requested target `PREMIGRATED`, yet
the final state is forced to `RESIDENT` and 3 (= tape size) bytes are copied. -/
theorem recall_size_mismatch_witness :
    (recallJob mismatchEnv FileState.MIGRATED FileState.PREMIGRATED 3).success = true ∧
    (recallJob mismatchEnv FileState.MIGRATED FileState.PREMIGRATED 3).bytesCopied = 3 ∧
    (recallJob mismatchEnv FileState.MIGRATED FileState.PREMIGRATED 3).warnings = 1 ∧
    (recallJob mismatchEnv FileState.MIGRATED FileState.PREMIGRATED 3).finalized =
      some FileState.RESIDENT ∧
    (recallJob mismatchEnv FileState.MIGRATED FileState.PREMIGRATED 3).remAttrDone = true :=
  recall_size_mismatch mismatchEnv FileState.MIGRATED FileState.PREMIGRATED 2 3
    rfl rfl rfl rfl (by decide) rfl rfl (by decide)
    (fun pos _ => rfl) (fun _ _ => rfl) (fun _ => rfl) (by decide)

/-- C9: a read returning zero bytes terminates the copy loop successfully
(first conjunct), and a recall of a zero-size file performs no tape read,
succeeds, and finalises the file to the requested target state (second
conjunct; `fstat` failing or reporting the same size 0 keeps the effective
size at the file's size 0). -/
theorem recall_zero_read_and_zero_size :
    (∀ (env : RecallEnv) (size f offset nreads : Nat),
      offset < size → env.forcedAt nreads = false → env.readAt offset = 0 →
      copyLoop env size (f + 1) offset nreads = (true, offset, nreads + 1)) ∧
    (∀ (env : RecallEnv) (state toState : FileState) (fuel : Nat),
      env.targetOk = true → env.curstate = FileState.MIGRATED →
      env.openOk = true → env.prepOk = true → env.finishOk = true →
      env.fileSize = 0 → (env.fstatOk = false ∨ env.tapeSize = 0) →
      (recallJob env state toState fuel).success = true ∧
      (recallJob env state toState fuel).readsDone = 0 ∧
      (recallJob env state toState fuel).bytesCopied = 0 ∧
      (recallJob env state toState fuel).finalized = some toState) := by
  constructor
  · intro env size f offset nreads hlt hforce hzero
    rw [copyLoop_succ env size f offset nreads hlt]
    simp [hforce, hzero]
  · intro env state toState fuel htgt hcur hopen hprep hfin hsize htape
    have hmm : (env.fstatOk && env.tapeSize != env.fileSize) = false := by
      rcases htape with h | h
      · simp [h]
      · simp [h, hsize]
    have heff : effSize env = 0 := by
      simp only [effSize]
      rw [hmm]
      simp [hsize]
    have hloop : copyLoop env (effSize env) fuel 0 0 = (true, 0, 0) := by
      rw [heff]; exact copyLoop_base env 0 fuel 0 0 le_rfl
    unfold recallJob
    rw [recallJob_st]
    simp [htgt, hcur, hopen, hprep, hfin, hmm, hloop]

/-- Concrete oracle with a zero-size file (tape agrees: size 0). -/
def zeroSizeEnv : RecallEnv where
  targetOk := true
  curstate := FileState.MIGRATED
  openOk := true
  fstatOk := true
  fileSize := 0
  tapeSize := 0
  prepOk := true
  readAt := fun _ => 0
  writeAt := fun _ r => r
  forcedAt := fun _ => false
  finishOk := true

/-- Witness for `recall_zero_read_and_zero_size` at concrete inputs:
a zero read at offset 2 of a 5-byte copy ends the loop successfully, and the
zero-size recall does no read and finalises to `PREMIGRATED` as requested. -/
theorem recall_zero_read_and_zero_size_witness :
    copyLoop zeroSizeEnv 5 4 2 1 = (true, 2, 2) ∧
    ((recallJob zeroSizeEnv FileState.MIGRATED FileState.PREMIGRATED 7).success = true ∧
      (recallJob zeroSizeEnv FileState.MIGRATED FileState.PREMIGRATED 7).readsDone = 0 ∧
      (recallJob zeroSizeEnv FileState.MIGRATED FileState.PREMIGRATED 7).bytesCopied = 0 ∧
      (recallJob zeroSizeEnv FileState.MIGRATED FileState.PREMIGRATED 7).finalized =
        some FileState.PREMIGRATED) := by
  constructor
  · exact recall_zero_read_and_zero_size.1 zeroSizeEnv 5 3 2 1 (by decide) rfl rfl
  · exact recall_zero_read_and_zero_size.2 zeroSizeEnv FileState.MIGRATED
      FileState.PREMIGRATED 7 rfl rfl rfl rfl rfl rfl (Or.inr rfl)

/-- If `Server::forcedTerminate` turns on at copy-loop iteration `k` while
the copy is still incomplete (`k * B < size` with full `B`-byte chunks so
far), the loop aborts exactly there: failure, offset `k * B`, `k` reads. -/
theorem copyLoop_forced (env : RecallEnv) (B size k : Nat) (hB : 1 ≤ B)
    (hread : ∀ pos, pos < size → env.readAt pos = ((min B (size - pos) : Nat) : Int))
    (hwrite : ∀ pos r, env.writeAt pos r = r)
    (hforced : ∀ i, env.forcedAt i = decide (k ≤ i))
    (hk : k * B < size) :
    ∀ fuel j, j ≤ k → k - j < fuel →
      copyLoop env size fuel (j * B) j = (false, k * B, k) := by
  intro fuel
  induction fuel with
  | zero => intro j hj hf; omega
  | succ f ih =>
    intro j hj hf
    have hjB : j * B ≤ k * B := Nat.mul_le_mul_right B hj
    have hlt : j * B < size := lt_of_le_of_lt hjB hk
    rw [copyLoop_succ env size f (j * B) j hlt, hforced j]
    by_cases hje : j = k
    · subst hje
      simp
    · have hjk : j < k := lt_of_le_of_ne hj hje
      have hj1B : (j + 1) * B ≤ k * B := Nat.mul_le_mul_right B hjk
      have hBle : B ≤ size - j * B := by
        have : j * B + B = (j + 1) * B := (Nat.succ_mul j B).symm
        omega
      have hmin : min B (size - j * B) = B := min_eq_left hBle
      have h0 : ((min B (size - j * B) : Nat) : Int) ≠ 0 := by
        rw [hmin]; exact_mod_cast Nat.one_le_iff_ne_zero.mp hB
      have hn1 : ((min B (size - j * B) : Nat) : Int) ≠ -1 := by
        have : (0 : Int) ≤ ((min B (size - j * B) : Nat) : Int) := Int.natCast_nonneg _
        omega
      have hnk : decide (k ≤ j) = false := decide_eq_false (Nat.not_le.mpr hjk)
      simp only [hnk, Bool.false_eq_true, if_false,
        hread (j * B) hlt, hwrite, ne_eq, not_true_eq_false, h0, hn1,
        Int.toNat_natCast]
      have hstep : j * B + min B (size - j * B) = (j + 1) * B := by
        rw [hmin, Nat.succ_mul]
      rw [hstep]
      exact ih (j + 1) hjk (by omega)

/-- Once the forced-terminate flag is set before a job starts, that job never
reads a byte from tape, whatever its state and oracle. -/
theorem recallJob_forced_no_reads (env : RecallEnv) (state toState : FileState)
    (fuel : Nat) (hforced : ∀ i, env.forcedAt i = true) :
    (recallJob env state toState fuel).readsDone = 0 := by
  have hloop : ∀ size, (copyLoop env size fuel 0 0) = (true, 0, 0) ∨
      (copyLoop env size fuel 0 0) = (false, 0, 0) := by
    intro size
    by_cases hs : size ≤ 0
    · exact Or.inl (copyLoop_base env size fuel 0 0 hs)
    · cases fuel with
      | zero => right; conv_lhs => rw [copyLoop]
                simp [hs]
      | succ f =>
        right
        rw [copyLoop_succ env size f 0 0 (Nat.lt_of_not_le hs), hforced 0]
        simp
  unfold recallJob
  rw [recallJob_st]
  cases hc : env.curstate <;>
  cases htgt : env.targetOk <;>
  cases hfin : env.finishOk <;>
  cases hopen : env.openOk <;>
  cases hprep : env.prepOk <;>
  rcases hloop (effSize env) with hl | hl <;>
  simp [hl]

/-- A job whose copy loop is interrupted by the forced-terminate flag at
iteration `k` (copy still incomplete) fails, having read `k` chunks. -/
theorem recallJob_forced_mid_fails (env : RecallEnv) (state toState : FileState)
    (B k fuel : Nat)
    (htgt : env.targetOk = true)
    (hcur : env.curstate = FileState.MIGRATED)
    (hopen : env.openOk = true)
    (hprep : env.prepOk = true)
    (hB : 1 ≤ B)
    (hread : ∀ pos, pos < effSize env →
      env.readAt pos = ((min B (effSize env - pos) : Nat) : Int))
    (hwrite : ∀ pos r, env.writeAt pos r = r)
    (hforced : ∀ i, env.forcedAt i = decide (k ≤ i))
    (hk : k * B < effSize env)
    (hfuel : k < fuel) :
    (recallJob env state toState fuel).success = false ∧
    (recallJob env state toState fuel).readsDone = k ∧
    (recallJob env state toState fuel).bytesCopied = k * B := by
  have hloop := copyLoop_forced env B (effSize env) k hB hread hwrite hforced hk
    fuel 0 (Nat.zero_le k) (by omega)
  rw [Nat.zero_mul] at hloop
  unfold recallJob
  rw [recallJob_st]
  simp [htgt, hcur, hopen, hprep, hloop]

/-! ## The queue store operations of transparent recall

The SQL statement texts live in `SQLStatements.cc`, which is not part of the
extracted source; the definitions below model them from the specification
(§4.3, §4.5) and from the binding/extraction sites visible in
`TransRecall.cc`. -/

/-- Modelled from the spec: `TransRecall::SET_RECALLING` (Phase A of §4.5) —
"bulk-update every job with this `(req_num, tape_id)` whose
`file_state == MIGRATED` to `RECALLING_MIG`" (and `PREMIGRATED` to
`RECALLING_PREMIG`); the call sites bind `(newState, reqNum, oldState,
tapeId)`. -/
def setRecalling (db : DB) (newState : FileState) (reqNum : Int)
    (oldState : FileState) (tapeId : String) : DB :=
  { db with jobs := db.jobs.map fun j =>
      if j.req_num = reqNum ∧ j.file_state = oldState ∧ j.tape_id = tapeId
      then { j with file_state := newState } else j }

/-- The `WHERE` predicate shared by `SELECT_JOBS` and `DELETE_JOBS`: jobs of
this `(req_num, tape_id)` in one of the two `RECALLING_*` states. -/
def claimed (reqNum : Int) (tapeId : String) (j : JobRow) : Bool :=
  j.req_num == reqNum &&
    (j.file_state == FileState.RECALLING_MIG ||
      j.file_state == FileState.RECALLING_PREMIG) &&
    j.tape_id == tapeId

/-- The processing order of Phase B: nondecreasing starting block. -/
def blockLE (a b : JobRow) : Prop := a.start_block ≤ b.start_block

instance : DecidableRel blockLE := fun a b => Int.decLe a.start_block b.start_block

instance : IsTotal JobRow blockLE := ⟨fun a b => Int.le_total a.start_block b.start_block⟩

instance : IsTrans JobRow blockLE := ⟨fun _ _ _ h1 h2 => Int.le_trans h1 h2⟩

/-- Modelled from the spec: `TransRecall::SELECT_JOBS` — "Select claimed jobs
ordered by `start_block` ascending" (§4.5 Phase B; the doc comment of
TransRecall.cc likewise says the order of files being recalled depends on the
starting block).  The call site binds `(reqNum, RECALLING_MIG,
RECALLING_PREMIG, tapeId)`. -/
def selectJobs (db : DB) (reqNum : Int) (tapeId : String) : List JobRow :=
  (db.jobs.filter (claimed reqNum tapeId)).insertionSort blockLE

/-- Modelled from the spec: `TransRecall::DELETE_JOBS` (§4.5 Phase C) —
"bulk-delete all `RECALLING_*` jobs for this `(req_num, tape_id)`"; the call
site binds `(reqNum, RECALLING_MIG, RECALLING_PREMIG, tapeId)`. -/
def deleteJobs (db : DB) (reqNum : Int) (tapeId : String) : DB :=
  { db with jobs := db.jobs.filter fun j => !claimed reqNum tapeId j }

/-- Modelled from the spec: `TransRecall::CHANGE_REQUEST_TO_NEW` — "update its
state to `REQ_NEW`" (§4.3 step 5 / §4.5 Phase C); the call sites bind
`(REQ_NEW, reqNum, tapeId)`. -/
def changeRequestToNew (db : DB) (reqNum : Int) (tapeId : String) : DB :=
  { db with requests := db.requests.map fun r =>
      if r.req_num = reqNum ∧ r.tape_id = tapeId
      then { r with state := ReqState.REQ_NEW } else r }

/-- Modelled from the spec: `TransRecall::DELETE_REQUEST` (§4.5 Phase C) —
"delete the request row"; the call site binds `(reqNum, tapeId)`. -/
def deleteRequest (db : DB) (reqNum : Int) (tapeId : String) : DB :=
  { db with requests := db.requests.filter fun r =>
      !(r.req_num == reqNum && r.tape_id == tapeId) }

/-- Modelled from the spec: `TransRecall::CHECK_REQUEST_EXISTS` — "Query
whether a request row for `req_num` exists" (§4.3 step 5); the call site
binds only `reqNum`. -/
def checkRequestExists (db : DB) (reqNum : Int) : Bool :=
  db.requests.any fun r => r.req_num == reqNum

/-- Modelled from the spec: `TransRecall::COUNT_REMAINING_JOBS` (§4.5
Phase C) — "count remaining ... jobs for the request"; the call site binds
`(reqNum, tapeId)`. -/
def countRemainingJobs (db : DB) (reqNum : Int) (tapeId : String) : Nat :=
  (db.jobs.filter fun j => j.req_num == reqNum && j.tape_id == tapeId).length

/-- Modelled from the spec: `TransRecall::REMAINING_JOBS` (§4.2 shutdown,
"select all jobs of kind transparent recall still present"); the call site
binds `TRARECALL` and extracts `(fsid_h, fsid_l, igen, inum, file_name,
conn_info)`. -/
def remainingJobs (db : DB) : List JobRow :=
  db.jobs.filter fun j => j.operation == Operation.TRARECALL

/-! ## TransRecall::processFiles and TransRecall::cleanupEvents -/

/-- Lines 454-457: the effective from-state derived from the recalling
flavour of the selected job. -/
def flavourState (j : JobRow) : FileState :=
  if j.file_state = FileState.RECALLING_MIG then FileState.MIGRATED
  else FileState.PREMIGRATED

/-- The `rec_info_t` contents for one selected job (lines 449-451 extract
fuid, filename and conn_info; lines 459-460 set `toresident` when the target
state is `RESIDENT`).  `tores` is the incoming value of
`recinfo.toresident`: the variable lives outside the loop and is only ever
set, never reset, so it is threaded through the iterations. -/
def jobRecInfo (j : JobRow) (tores : Bool) : RecInfo where
  fuid := ⟨j.fsid_h, j.fsid_l, j.igen, j.inum⟩
  filename := j.file_name.getD ""
  toresident := if j.target_state = FileState.RESIDENT then true else tores
  conn_info := j.conn_info

/-- The `while (stmt.step(...))` loop of `TransRecall::processFiles`
(lines 449-475): for each selected job, call `recall` and append
`(recinfo, succeeded)` to the response list. -/
def pfLoop (envOf : JobRow → RecallEnv) (fuel : Nat) :
    Bool → List JobRow → List (RecInfo × Bool)
  | _, [] => []
  | tores, j :: js =>
    let tores2 := if j.target_state = FileState.RESIDENT then true else tores
    let res := recallJob (envOf j) (flavourState j) j.target_state fuel
    (jobRecInfo j tores, res.success) :: pfLoop envOf fuel tores2 js

/-- Result of `TransRecall::processFiles`: the claimed-and-ordered job list,
the per-job response list, the store after `DELETE_JOBS`, and the responses
delivered in Phase D. -/
structure PFResult where
  selected : List JobRow
  resplist : List (RecInfo × Bool)
  db : DB
  effects : List Effect

/-- `TransRecall::processFiles` (lines 420-486): claim `MIGRATED` and
`PREMIGRATED` jobs of `(reqNum, tapeId)` as `RECALLING_*`, select them
ordered by starting block, recall each in turn, delete the `RECALLING_*`
jobs, then respond to every captured event.  `envOf` supplies the
tape/filesystem oracle of each job's `recall` call. -/
def processFiles (envOf : JobRow → RecallEnv) (fuel : Nat) (db : DB)
    (reqNum : Int) (tapeId : String) : PFResult :=
  let db1 := setRecalling db FileState.RECALLING_MIG reqNum FileState.MIGRATED tapeId
  let db2 := setRecalling db1 FileState.RECALLING_PREMIG reqNum FileState.PREMIGRATED tapeId
  let sel := selectJobs db2 reqNum tapeId
  let resplist := pfLoop envOf fuel false sel
  let db3 := deleteJobs db2 reqNum tapeId
  { selected := sel, resplist := resplist, db := db3,
    effects := resplist.map fun p => Effect.respond p.1 p.2 }

/-- `TransRecall::cleanupEvents` (lines 190-205): select every remaining
job of kind transparent recall and respond failure for each.  The
`toresident` member of the freshly declared `rec_info_t` is not extracted by
the statement and plays no role in the response; it is modelled as `false`. -/
def cleanupEvents (db : DB) : List Effect :=
  (remainingJobs db).map fun j =>
    Effect.respond ⟨⟨j.fsid_h, j.fsid_l, j.igen, j.inum⟩, j.file_name.getD "",
      false, j.conn_info⟩ false

theorem pfLoop_fuid (envOf : JobRow → RecallEnv) (fuel : Nat) :
    ∀ (sel : List JobRow) (tores : Bool),
      (pfLoop envOf fuel tores sel).map (fun p => p.1.fuid) =
        sel.map fun j => (⟨j.fsid_h, j.fsid_l, j.igen, j.inum⟩ : FUid) := by
  intro sel
  induction sel with
  | nil => intro tores; rfl
  | cons j js ih =>
    intro tores
    simp only [pfLoop, List.map_cons, ih]
    rfl

theorem pfLoop_success (envOf : JobRow → RecallEnv) (fuel : Nat) :
    ∀ (sel : List JobRow) (tores : Bool),
      (pfLoop envOf fuel tores sel).map Prod.snd =
        sel.map fun j =>
          (recallJob (envOf j) (flavourState j) j.target_state fuel).success := by
  intro sel
  induction sel with
  | nil => intro tores; rfl
  | cons j js ih =>
    intro tores
    simp only [pfLoop, List.map_cons, ih]

/-- C2: within a single execution of a request, `processFiles` handles the
claimed jobs — and hence recalls the files — in nondecreasing `start_block`
order: the selected list is sorted by `blockLE`, and the response list (one
entry per recalled file, in recall order) follows exactly that list. -/
theorem processFiles_ordered (envOf : JobRow → RecallEnv) (fuel : Nat) (db : DB)
    (reqNum : Int) (tapeId : String) :
    List.Sorted blockLE (processFiles envOf fuel db reqNum tapeId).selected ∧
    (processFiles envOf fuel db reqNum tapeId).resplist.map (fun p => p.1.fuid) =
      (processFiles envOf fuel db reqNum tapeId).selected.map
        (fun j => (⟨j.fsid_h, j.fsid_l, j.igen, j.inum⟩ : FUid)) := by
  constructor
  · exact List.sorted_insertionSort blockLE _
  · exact pfLoop_fuid envOf fuel _ false

/-- C6: if the process-wide forced-terminate flag becomes set at iteration
`k` of one job's tape copy while that copy is incomplete, that job fails;
and — the flag being sticky, so every later sample sees it set — no job
processed after it in the same request execution reads a single byte from
tape.  `pre`/`post` are the jobs before/after the interrupted job `jF` in
the `start_block`-ordered selection. -/
theorem processFiles_forced_terminate (envOf : JobRow → RecallEnv) (fuel : Nat)
    (db : DB) (reqNum : Int) (tapeId : String) (B k : Nat)
    (pre post : List JobRow) (jF : JobRow)
    (hsel : (processFiles envOf fuel db reqNum tapeId).selected = pre ++ jF :: post)
    (htgt : (envOf jF).targetOk = true)
    (hcur : (envOf jF).curstate = FileState.MIGRATED)
    (hopen : (envOf jF).openOk = true)
    (hprep : (envOf jF).prepOk = true)
    (hB : 1 ≤ B)
    (hread : ∀ pos, pos < effSize (envOf jF) →
      (envOf jF).readAt pos = ((min B (effSize (envOf jF) - pos) : Nat) : Int))
    (hwrite : ∀ pos r, (envOf jF).writeAt pos r = r)
    (hforced : ∀ i, (envOf jF).forcedAt i = decide (k ≤ i))
    (hk : k * B < effSize (envOf jF))
    (hfuel : k < fuel)
    (hpost : ∀ j ∈ post, ∀ i, (envOf j).forcedAt i = true) :
    (processFiles envOf fuel db reqNum tapeId).resplist.map Prod.snd =
      (pre.map fun j =>
        (recallJob (envOf j) (flavourState j) j.target_state fuel).success) ++
      false ::
      (post.map fun j =>
        (recallJob (envOf j) (flavourState j) j.target_state fuel).success) ∧
    ∀ j ∈ post,
      (recallJob (envOf j) (flavourState j) j.target_state fuel).readsDone = 0 := by
  have hfail := recallJob_forced_mid_fails (envOf jF) (flavourState jF)
    jF.target_state B k fuel htgt hcur hopen hprep hB hread hwrite hforced hk hfuel
  constructor
  · have hpf : (processFiles envOf fuel db reqNum tapeId).resplist =
        pfLoop envOf fuel false (processFiles envOf fuel db reqNum tapeId).selected := rfl
    rw [hpf, hsel]
    calc (pfLoop envOf fuel false (pre ++ jF :: post)).map Prod.snd
        = (pre ++ jF :: post).map (fun j =>
            (recallJob (envOf j) (flavourState j) j.target_state fuel).success) :=
          pfLoop_success envOf fuel (pre ++ jF :: post) false
      _ = _ := by
          rw [List.map_append, List.map_cons, hfail.1]
  · intro j hj
    exact recallJob_forced_no_reads (envOf j) (flavourState j) j.target_state fuel
      (hpost j hj)

/-- Oracle of the job interrupted mid-copy: 3 bytes to copy in 1-byte
chunks, flag turning on at iteration 1. -/
def forcedMidEnv : RecallEnv where
  targetOk := true
  curstate := FileState.MIGRATED
  openOk := true
  fstatOk := false
  fileSize := 3
  tapeSize := 0
  prepOk := true
  readAt := fun pos => ((min 1 (3 - pos) : Nat) : Int)
  writeAt := fun _ r => r
  forcedAt := fun i => decide (1 ≤ i)
  finishOk := true

/-- Oracle of the subsequent job: the flag is already set at every sample. -/
def forcedAllEnv : RecallEnv where
  targetOk := true
  curstate := FileState.MIGRATED
  openOk := true
  fstatOk := false
  fileSize := 5
  tapeSize := 0
  prepOk := true
  readAt := fun _ => 0
  writeAt := fun _ r => r
  forcedAt := fun _ => true
  finishOk := true

/-- First job of the witness request: starting block 10, migrated. -/
def jobC6a : JobRow where
  operation := Operation.TRARECALL
  file_name := some "a"
  req_num := 4
  target_state := FileState.PREMIGRATED
  repl_num := replUNSET
  file_size := 3
  fsid_h := 1
  fsid_l := 1
  igen := 1
  inum := 1
  mtime_sec := 0
  mtime_nsec := 0
  last_upd := 0
  tape_id := "T1"
  file_state := FileState.MIGRATED
  start_block := 10
  conn_info := 11

/-- Second job of the witness request: starting block 20, migrated. -/
def jobC6b : JobRow where
  operation := Operation.TRARECALL
  file_name := some "b"
  req_num := 4
  target_state := FileState.PREMIGRATED
  repl_num := replUNSET
  file_size := 5
  fsid_h := 1
  fsid_l := 1
  igen := 1
  inum := 2
  mtime_sec := 0
  mtime_nsec := 0
  last_upd := 0
  tape_id := "T1"
  file_state := FileState.MIGRATED
  start_block := 20
  conn_info := 12

/-- Per-job oracle of the witness: the first job gets interrupted mid-copy,
the second starts under an already-set flag. -/
def envOfC6 : JobRow → RecallEnv :=
  fun j => if j.inum == 1 then forcedMidEnv else forcedAllEnv

/-- Witness for `processFiles_forced_terminate`: two migrated jobs; the flag
turns on during the first job's copy, so the first job fails and the second
reads nothing. -/
theorem processFiles_forced_terminate_witness :
    (processFiles envOfC6 2 ⟨[jobC6a, jobC6b], []⟩ 4 "T1").resplist.map Prod.snd =
      [false, false] ∧
    (recallJob (envOfC6 { jobC6b with file_state := FileState.RECALLING_MIG })
      (flavourState { jobC6b with file_state := FileState.RECALLING_MIG })
      (jobC6b.target_state) 2).readsDone = 0 := by
  have h := processFiles_forced_terminate envOfC6 2 ⟨[jobC6a, jobC6b], []⟩ 4 "T1" 1 1
    [] [{ jobC6b with file_state := FileState.RECALLING_MIG }]
    ({ jobC6a with file_state := FileState.RECALLING_MIG })
    (by decide) rfl rfl rfl rfl le_rfl (fun pos _ => rfl) (fun _ _ => rfl)
    (fun _ => rfl) (by decide) (by decide)
    (by intro j hj i
        rcases List.mem_singleton.mp hj with rfl
        rfl)
  constructor
  · rw [h.1]
    decide
  · exact h.2 _ (List.mem_singleton.mpr rfl)

/-! ## TransRecall::execRequest -/

/-- `TransRecall::execRequest` (lines 488-532): run `processFiles`, update
the inventory (external; not part of the store state), count the jobs still
present for `(reqNum, tapeId)`, then either reset the request to `REQ_NEW`
or delete it, and finally signal the scheduler condition.  The result is the
final store together with the ordered effect trace (Phase D responses, then
the request mutation, then the signal). -/
def execRequest (envOf : JobRow → RecallEnv) (fuel : Nat) (db : DB)
    (reqNum : Int) (tapeId : String) : DB × List Effect :=
  let pf := processFiles envOf fuel db reqNum tapeId
  let remaining := countRemainingJobs pf.db reqNum tapeId
  if remaining ≠ 0 then
    (changeRequestToNew pf.db reqNum tapeId,
      pf.effects ++ [Effect.resetReq reqNum tapeId, Effect.signal])
  else
    (deleteRequest pf.db reqNum tapeId,
      pf.effects ++ [Effect.deleteReq reqNum tapeId, Effect.signal])

/-- C8: at the end of every request execution, after the `RECALLING_*` jobs
have been deleted: if jobs remain for `(reqNum, tapeId)` every request row of
that pair is reset to `REQ_NEW`, otherwise no request row of that pair
survives; in both cases the scheduler condition is signalled after the
request mutation. -/
theorem execRequest_finalise (envOf : JobRow → RecallEnv) (fuel : Nat) (db : DB)
    (reqNum : Int) (tapeId : String) :
    (countRemainingJobs (processFiles envOf fuel db reqNum tapeId).db reqNum tapeId ≠ 0 →
      ∀ r ∈ (execRequest envOf fuel db reqNum tapeId).1.requests,
        r.req_num = reqNum → r.tape_id = tapeId → r.state = ReqState.REQ_NEW) ∧
    (countRemainingJobs (processFiles envOf fuel db reqNum tapeId).db reqNum tapeId = 0 →
      ∀ r ∈ (execRequest envOf fuel db reqNum tapeId).1.requests,
        ¬(r.req_num = reqNum ∧ r.tape_id = tapeId)) ∧
    (execRequest envOf fuel db reqNum tapeId).2 =
      (processFiles envOf fuel db reqNum tapeId).effects ++
        [if countRemainingJobs (processFiles envOf fuel db reqNum tapeId).db reqNum tapeId ≠ 0
          then Effect.resetReq reqNum tapeId else Effect.deleteReq reqNum tapeId,
          Effect.signal] := by
  refine ⟨?_, ?_, ?_⟩
  · intro hrem r hr h1 h2
    unfold execRequest at hr
    rw [if_pos hrem] at hr
    unfold changeRequestToNew at hr
    simp only [List.mem_map] at hr
    obtain ⟨r0, _, hr0⟩ := hr
    by_cases hc : r0.req_num = reqNum ∧ r0.tape_id = tapeId
    · rw [if_pos hc] at hr0
      rw [← hr0]
    · rw [if_neg hc] at hr0
      subst hr0
      exact absurd ⟨h1, h2⟩ hc
  · intro hrem r hr
    unfold execRequest at hr
    rw [if_neg (by simp [hrem])] at hr
    unfold deleteRequest at hr
    simp only [List.mem_filter, Bool.not_eq_true'] at hr
    intro hc
    have := hr.2
    simp [hc.1, hc.2] at this
  · unfold execRequest
    by_cases hrem :
        countRemainingJobs (processFiles envOf fuel db reqNum tapeId).db reqNum tapeId ≠ 0 <;>
      simp [hrem]

/-- A recall oracle in which every external call fails; used where the
per-job oracle is irrelevant. -/
def nullRecallEnv : RecallEnv where
  targetOk := false
  curstate := FileState.RESIDENT
  openOk := false
  fstatOk := false
  fileSize := 0
  tapeSize := 0
  prepOk := false
  readAt := fun _ => 0
  writeAt := fun _ _ => 0
  forcedAt := fun _ => false
  finishOk := false

/-- Per-job oracle assigning the failing oracle to every job. -/
def nullEnvOf : JobRow → RecallEnv := fun _ => nullRecallEnv

/-- Request row of the C8 witness scenarios. -/
def reqRowC8 : ReqRow :=
  ⟨Operation.TRARECALL, 4, "T1", 0, ReqState.REQ_INPROGRESS⟩

/-- An unrelated request row surviving the deletion scenario. -/
def reqRowC8other : ReqRow :=
  ⟨Operation.TRARECALL, 9, "T2", 0, ReqState.REQ_NEW⟩

/-- A job of `(4, "T1")` that is not claimable (already resident), so it
survives `DELETE_JOBS` and keeps the request alive. -/
def jobC8stay : JobRow where
  operation := Operation.TRARECALL
  file_name := none
  req_num := 4
  target_state := FileState.RESIDENT
  repl_num := replUNSET
  file_size := 0
  fsid_h := 1
  fsid_l := 1
  igen := 1
  inum := 3
  mtime_sec := 0
  mtime_nsec := 0
  last_upd := 0
  tape_id := "T1"
  file_state := FileState.RESIDENT
  start_block := 0
  conn_info := 21

/-- A migrated job of `(4, "T1")`: it is claimed and deleted, leaving no
remaining job. -/
def jobC8del : JobRow :=
  { jobC8stay with inum := 4, file_state := FileState.MIGRATED, conn_info := 22 }

/-- Witness for `execRequest_finalise` on both branches: with a remaining
job the request is reset to `REQ_NEW`; with none, only rows of other
`(req_num, tape_id)` pairs survive. -/
theorem execRequest_finalise_witness :
    ({ reqRowC8 with state := ReqState.REQ_NEW } : ReqRow).state = ReqState.REQ_NEW ∧
    ¬(reqRowC8other.req_num = 4 ∧ reqRowC8other.tape_id = "T1") := by
  constructor
  · exact (execRequest_finalise nullEnvOf 1 ⟨[jobC8stay], [reqRowC8]⟩ 4 "T1").1
      (by decide) { reqRowC8 with state := ReqState.REQ_NEW } (by decide) rfl rfl
  · exact (execRequest_finalise nullEnvOf 1 ⟨[jobC8del], [reqRowC8, reqRowC8other]⟩ 4 "T1").2.1
      (by decide) reqRowC8other (by decide)

/-! ## TransRecall::addJob -/

/-- Oracle for the external calls of one `TransRecall::addJob` task:

* `statOk`: the `FsObj` constructor and `fso.stat()` do not throw;
* `isReg`: `S_ISREG(statbuf.st_mode)`;
* `statSize` / `statMtime`: `statbuf.st_size` / `statbuf.st_mtime`;
* `migStateOk` / `migState`: `fso.getMigState()` (throw / value);
* `attrOk` / `attrTape`: `fso.getAttribute()` (throw / `attr.tapeId[0]`);
* `tapeNameOk` / `tapeName`: `Server::getTapeName(...)` (throw / value);
* `garbage*`: the values of the local variables `statbuf`, `state` and
  `attr` that were never assigned when an exception skipped the rest of the
  try block — the code nevertheless reads them after the catch (C++
  indeterminate values, supplied by the oracle);
* `insertOk`: `stmt.doall()` of `ADD_JOB` does not throw (a throw — e.g. a
  uniqueness violation — unwinds `addJob` with nothing inserted);
* `startBlock`: `Server::getStartBlock` on the (possibly empty) tape name;
* `now`: `time(NULL)`. -/
structure AddJobEnv where
  statOk : Bool
  isReg : Bool
  statSize : Nat
  statMtime : Int
  migStateOk : Bool
  migState : FileState
  attrOk : Bool
  attrTape : String
  tapeNameOk : Bool
  tapeName : String
  garbageSize : Nat
  garbageMtime : Int
  garbageState : FileState
  garbageAttrTape : String
  insertOk : Bool
  startBlock : String → Int
  now : Int

/-- Outcome of the try block of `addJob` (lines 118-145): either one of the
two early returns, or fall-through to the job insert carrying the values of
`statbuf.st_size`, `statbuf.st_mtime`, `state`, `attr.tapeId[0]` and
`tapeName` as they stand after the block (the catch at line 139 logs and
does NOT return, so every exception also falls through). -/
inductive AddJobTryOutcome where
  | dropNotReg
  | respondResident
  | proceed (size : Nat) (mtime : Int) (state : FileState)
      (attrTape : String) (tapeName : String)
deriving DecidableEq, Repr

/-- The try block of `TransRecall::addJob`. -/
def addJobTry (env : AddJobEnv) : AddJobTryOutcome :=
  if !env.statOk then
    .proceed env.garbageSize env.garbageMtime env.garbageState env.garbageAttrTape ""
  else if !env.isReg then .dropNotReg
  else if !env.migStateOk then
    .proceed env.statSize env.statMtime env.garbageState env.garbageAttrTape ""
  else if env.migState = FileState.RESIDENT then .respondResident
  else if !env.attrOk then
    .proceed env.statSize env.statMtime env.migState env.garbageAttrTape ""
  else if !env.tapeNameOk then
    .proceed env.statSize env.statMtime env.migState env.attrTape ""
  else
    .proceed env.statSize env.statMtime env.migState env.attrTape env.tapeName

/-- The job row bound by `ADD_JOB` (lines 147-154). -/
def addJobRow (env : AddJobEnv) (recinfo : RecInfo) (tapeId : String)
    (reqNum : Int) (size : Nat) (mtime : Int) (state : FileState)
    (tapeName : String) : JobRow where
  operation := Operation.TRARECALL
  file_name := if recinfo.filename = "" then none else some recinfo.filename
  req_num := reqNum
  target_state :=
    if recinfo.toresident then FileState.RESIDENT else FileState.PREMIGRATED
  repl_num := replUNSET
  file_size := size
  fsid_h := recinfo.fuid.fsid_h
  fsid_l := recinfo.fuid.fsid_l
  igen := recinfo.fuid.igen
  inum := recinfo.fuid.inum
  mtime_sec := mtime
  mtime_nsec := 0
  last_upd := env.now
  tape_id := tapeId
  file_state := state
  start_block := env.startBlock tapeName
  conn_info := recinfo.conn_info

/-- `TransRecall::addJob` (lines 101-188): returns the delivered effects and
the store afterwards.  After the try block, unless one of the two early
returns fired, the job row is inserted (`ADD_JOB`), then under the scheduler
mutex the request for `reqNum` is re-activated (`CHANGE_REQUEST_TO_NEW`,
bound with the `tapeId` argument) if one exists, else a fresh request row is
inserted (`ADD_REQUEST`, bound with `attr.tapeId[0]`) — and the scheduler
condition is notified. -/
def addJob (env : AddJobEnv) (recinfo : RecInfo) (tapeId : String)
    (reqNum : Int) (db : DB) : List Effect × DB :=
  match addJobTry env with
  | .dropNotReg => ([], db)
  | .respondResident => ([Effect.respond recinfo true], db)
  | .proceed size mtime state attrTape tapeName =>
    if !env.insertOk then ([], db)
    else
      let j := addJobRow env recinfo tapeId reqNum size mtime state tapeName
      let db1 : DB := { db with jobs := db.jobs ++ [j] }
      if checkRequestExists db1 reqNum then
        ([Effect.signal], changeRequestToNew db1 reqNum tapeId)
      else
        ([Effect.signal],
          { db1 with requests := db1.requests ++
            [⟨Operation.TRARECALL, reqNum, attrTape, env.now, ReqState.REQ_NEW⟩] })

/-- An event as received by the writer pool (inode 42, response handle 7). -/
def eventC3 : RecInfo := ⟨⟨1, 1, 1, 42⟩, "f", true, 7⟩

/-- `addJob` oracle in which `fso.getAttribute()` throws (lines 135/139):
the catch logs, and execution falls through to the insert. -/
def attrFailEnv : AddJobEnv where
  statOk := true
  isReg := true
  statSize := 4096
  statMtime := 5
  migStateOk := true
  migState := FileState.MIGRATED
  attrOk := false
  attrTape := ""
  tapeNameOk := false
  tapeName := ""
  garbageSize := 0
  garbageMtime := 0
  garbageState := FileState.MIGRATED
  garbageAttrTape := ""
  insertOk := true
  startBlock := fun _ => 0
  now := 100

/-- C3 failing input: an accepted event whose migration-attribute read throws
inside `addJob`.  The catch at TransRecall.cc:139-145 logs but does not
return, so — contrary to the spec's failure policy — a job row is inserted,
a request row is created, and no response is sent (the only effect is the
scheduler signal). -/
theorem addJob_attr_failure_inserts :
    (addJob attrFailEnv eventC3 "T00001" 1 ⟨[], []⟩).2.jobs.length = 1 ∧
    (addJob attrFailEnv eventC3 "T00001" 1 ⟨[], []⟩).2.requests.length = 1 ∧
    (addJob attrFailEnv eventC3 "T00001" 1 ⟨[], []⟩).1 = [Effect.signal] := by
  decide

/-- The event of the C5 counterexample (inode 43, response handle 8). -/
def eventC5 : RecInfo := ⟨⟨1, 1, 1, 43⟩, "g", false, 8⟩

/-- `addJob` oracle in which every call succeeds but the attribute re-read
inside `addJob` yields first tape `T00002`, while the receiver dispatched the
event with tape `T00001` (the attribute changed between the two reads). -/
def attrDriftEnv : AddJobEnv where
  statOk := true
  isReg := true
  statSize := 4096
  statMtime := 5
  migStateOk := true
  migState := FileState.MIGRATED
  attrOk := true
  attrTape := "T00002"
  tapeNameOk := true
  tapeName := "tape-path"
  garbageSize := 0
  garbageMtime := 0
  garbageState := FileState.MIGRATED
  garbageAttrTape := ""
  insertOk := true
  startBlock := fun _ => 100
  now := 100

/-- C5 counterexample: `ADD_REQUEST` binds `attr.tapeId[0]` (TransRecall.cc
line 183), not the `tapeId` argument that was bound into the job row, so the
freshly inserted request row can carry a different tape id than the job row
of the same event. -/
theorem addJob_request_tape_counterexample :
    (addJob attrDriftEnv eventC5 "T00001" 1 ⟨[], []⟩).2.jobs.map JobRow.tape_id =
      ["T00001"] ∧
    (addJob attrDriftEnv eventC5 "T00001" 1 ⟨[], []⟩).2.requests.map ReqRow.tape_id =
      ["T00002"] ∧
    ("T00002" : String) ≠ "T00001" := by
  decide

/-- C5 (amended): when no request row for `reqNum` exists, the request row
inserted by `addJob` carries operation `TRARECALL`, state `REQ_NEW`, the
current time, and the first tape id of the migration attribute as re-read by
`addJob` (`attr.tapeId[0]`) — which coincides with the tape id written into
the job row exactly when that re-read returns the event's tape id. -/
theorem addJob_new_request_row (env : AddJobEnv) (recinfo : RecInfo)
    (tapeId : String) (reqNum : Int) (db : DB)
    (hstat : env.statOk = true) (hreg : env.isReg = true)
    (hmig : env.migStateOk = true) (hres : env.migState ≠ FileState.RESIDENT)
    (hattr : env.attrOk = true) (hins : env.insertOk = true)
    (hnoreq : ∀ r ∈ db.requests, r.req_num ≠ reqNum) :
    (addJob env recinfo tapeId reqNum db).2.requests =
      db.requests ++
        [⟨Operation.TRARECALL, reqNum, env.attrTape, env.now, ReqState.REQ_NEW⟩] ∧
    ((addJob env recinfo tapeId reqNum db).2.jobs.getLast?).map JobRow.tape_id =
      some tapeId := by
  have hchk : ∀ j, checkRequestExists { db with jobs := db.jobs ++ [j] } reqNum = false := by
    intro j
    simp only [checkRequestExists, List.any_eq_false]
    intro r hr
    simp [hnoreq r hr]
  have htry : ∃ tn, addJobTry env =
      .proceed env.statSize env.statMtime env.migState env.attrTape tn := by
    cases htn : env.tapeNameOk
    · exact ⟨"", by simp [addJobTry, hstat, hreg, hmig, hres, hattr, htn]⟩
    · exact ⟨env.tapeName, by simp [addJobTry, hstat, hreg, hmig, hres, hattr, htn]⟩
  obtain ⟨tn, htry⟩ := htry
  unfold addJob
  rw [htry]
  simp only [hins, Bool.not_true, Bool.false_eq_true, if_false, hchk, ite_false]
  refine ⟨trivial, ?_⟩
  simp [List.getLast?_concat, addJobRow]

/-- The drift oracle with the attribute re-read agreeing with the event. -/
def attrSameEnv : AddJobEnv := { attrDriftEnv with attrTape := "T00001" }

/-- Witness for `addJob_new_request_row`: agreeing reads give a request row
whose tape id matches the job row's. -/
theorem addJob_new_request_row_witness :
    (addJob attrSameEnv eventC5 "T00001" 1 ⟨[], []⟩).2.requests =
      [⟨Operation.TRARECALL, 1, "T00001", 100, ReqState.REQ_NEW⟩] ∧
    ((addJob attrSameEnv eventC5 "T00001" 1 ⟨[], []⟩).2.jobs.getLast?).map
      JobRow.tape_id = some "T00001" := by
  have h := addJob_new_request_row attrSameEnv eventC5 "T00001" 1 ⟨[], []⟩
    rfl rfl rfl (by decide) rfl rfl (by intro r hr; cases hr)
  exact ⟨h.1, h.2⟩

/-! ## The event receiver (TransRecall::run) and the lifecycle of one event -/

/-- Oracle for the receiver's per-event handling in `TransRecall::run`
(lines 254-314):

* `terminate`: `Server::terminate` at line 267;
* `migReadOk` / `migState`: the `FsObj` constructor and `getMigState()` at
  lines 280-282 (throw / value);
* `finishOk`: `fso.finishRecall(FsObj::RESIDENT)` at line 283;
* `attrOk` / `attrTape`: `fso.getAttribute().tapeId[0]` at line 289
  (throw / value).  Any throw is answered with a failure response by the
  catch blocks at lines 290-302. -/
structure RecvEnv where
  terminate : Bool
  migReadOk : Bool
  migState : FileState
  finishOk : Bool
  attrOk : Bool
  attrTape : String

/-- One iteration of the receiver loop for one received event: the effects
it delivers itself and, if it dispatches the event to the writer pool, the
tape id passed along (`some tapeId`). -/
def runStep (renv : RecvEnv) (e : RecInfo) : List Effect × Option String :=
  if e.conn_info = 0 then ([], none)
  else if renv.terminate then ([Effect.respond e false], none)
  else if e.fuid.inum = 0 then ([], none)
  else if !renv.migReadOk then ([Effect.respond e false], none)
  else if renv.migState = FileState.RESIDENT then
    if renv.finishOk then
      ([Effect.finishRec FileState.RESIDENT, Effect.respond e true], none)
    else ([Effect.respond e false], none)
  else if !renv.attrOk then ([Effect.respond e false], none)
  else ([], some renv.attrTape)

/-- The responses an inserted job can still receive after `addJob` returns:
if the request gets scheduled before shutdown, `processFiles` responds for
every claimed job of the pair and deletes those jobs; either way, the
shutdown `cleanupEvents` pass responds failure for every transparent-recall
job still in the store. -/
def postAddJob (envOf : JobRow → RecallEnv) (fuel : Nat) (processed : Bool)
    (db : DB) (reqNum : Int) (tapeId : String) : List Effect :=
  if processed then
    let pf := processFiles envOf fuel db reqNum tapeId
    pf.effects ++ cleanupEvents pf.db
  else cleanupEvents db

/-- The full lifecycle of one received event: the receiver step; if the
event was dispatched, the `addJob` task (with the request number assigned
from the tape map); and then — for the jobs the event may have left in the
store — the Phase D / shutdown-cleanup responses. -/
def eventLifecycle (renv : RecvEnv) (aenv : AddJobEnv)
    (envOf : JobRow → RecallEnv) (fuel : Nat) (reqNum : Int) (processed : Bool)
    (db : DB) (e : RecInfo) : List Effect × DB :=
  match runStep renv e with
  | (acts, none) => (acts, db)
  | (acts, some tapeId) =>
    let a := addJob aenv e tapeId reqNum db
    (acts ++ a.1 ++ postAddJob envOf fuel processed a.2 reqNum tapeId, a.2)

/-- Is this effect a response to connection handle `c`? -/
def isRespondTo (c : Nat) : Effect → Bool
  | Effect.respond r _ => r.conn_info == c
  | _ => false

/-- Number of responses delivered to connection handle `c`. -/
def countResp (c : Nat) (effects : List Effect) : Nat :=
  effects.countP (isRespondTo c)

theorem countResp_cleanupEvents (d : DB) (c : Nat) :
    countResp c (cleanupEvents d) =
      d.jobs.countP fun j => j.conn_info == c && j.operation == Operation.TRARECALL := by
  unfold countResp cleanupEvents remainingJobs
  rw [List.countP_map, List.countP_filter]
  rfl

theorem pfLoop_countP (envOf : JobRow → RecallEnv) (fuel : Nat) (c : Nat) :
    ∀ (sel : List JobRow) (tores : Bool),
      (pfLoop envOf fuel tores sel).countP (fun p => p.1.conn_info == c) =
        sel.countP fun j => j.conn_info == c := by
  intro sel
  induction sel with
  | nil => intro tores; rfl
  | cons j js ih =>
    intro tores
    simp only [pfLoop, List.countP_cons, ih]
    rfl

theorem countResp_processFiles (envOf : JobRow → RecallEnv) (fuel : Nat) (db : DB)
    (reqNum : Int) (tapeId : String) (c : Nat) :
    countResp c (processFiles envOf fuel db reqNum tapeId).effects =
      (processFiles envOf fuel db reqNum tapeId).selected.countP
        fun j => j.conn_info == c := by
  have h1 : countResp c (processFiles envOf fuel db reqNum tapeId).effects =
      (processFiles envOf fuel db reqNum tapeId).resplist.countP
        fun p => p.1.conn_info == c := by
    unfold countResp
    have heq : (processFiles envOf fuel db reqNum tapeId).effects =
        (processFiles envOf fuel db reqNum tapeId).resplist.map
          (fun p => Effect.respond p.1 p.2) := rfl
    rw [heq, List.countP_map]
    rfl
  rw [h1]
  exact pfLoop_countP envOf fuel c _ false

theorem selectJobs_countP (db : DB) (reqNum : Int) (tapeId : String)
    (p : JobRow → Bool) :
    (selectJobs db reqNum tapeId).countP p =
      db.jobs.countP fun j => p j && claimed reqNum tapeId j := by
  unfold selectJobs
  rw [(List.perm_insertionSort blockLE _).countP_eq, List.countP_filter]

theorem setRecalling_countP_conn (db : DB) (ns : FileState) (rq : Int)
    (os : FileState) (t : String) (c : Nat) :
    (setRecalling db ns rq os t).jobs.countP (fun j => j.conn_info == c) =
      db.jobs.countP fun j => j.conn_info == c := by
  unfold setRecalling
  rw [List.countP_map]
  congr 1
  funext j
  by_cases h : j.req_num = rq ∧ j.file_state = os ∧ j.tape_id = t <;> simp [h]

theorem setRecalling_side (db : DB) (ns : FileState) (rq : Int) (os : FileState)
    (t : String) (c : Nat)
    (h : ∀ j ∈ db.jobs, j.conn_info = c → j.operation = Operation.TRARECALL) :
    ∀ j ∈ (setRecalling db ns rq os t).jobs,
      j.conn_info = c → j.operation = Operation.TRARECALL := by
  intro j2 hj2
  unfold setRecalling at hj2
  simp only [List.mem_map] at hj2
  obtain ⟨j, hj, rfl⟩ := hj2
  by_cases hcond : j.req_num = rq ∧ j.file_state = os ∧ j.tape_id = t <;>
    simp [hcond] <;> exact h j hj

theorem countP_split_claimed (rq : Int) (t : String) (c : Nat) :
    ∀ l : List JobRow,
      (∀ j ∈ l, j.conn_info = c → j.operation = Operation.TRARECALL) →
      l.countP (fun j => j.conn_info == c && claimed rq t j) +
        l.countP (fun j =>
          (j.conn_info == c && j.operation == Operation.TRARECALL) &&
            !claimed rq t j) =
        l.countP fun j => j.conn_info == c := by
  intro l
  induction l with
  | nil => intro h; rfl
  | cons j js ih =>
    intro h
    have hjs := ih fun x hx => h x (List.mem_cons_of_mem j hx)
    simp only [List.countP_cons]
    cases hc : (j.conn_info == c) with
    | false => simp [hc]; omega
    | true =>
      have hop : j.operation = Operation.TRARECALL :=
        h j (List.mem_cons_self j js) (by exact beq_iff_eq.mp hc)
      cases hcl : claimed rq t j <;> simp [hc, hcl, hop] <;> omega

theorem countP_conn_op (c : Nat) :
    ∀ l : List JobRow,
      (∀ j ∈ l, j.conn_info = c → j.operation = Operation.TRARECALL) →
      l.countP (fun j => j.conn_info == c && j.operation == Operation.TRARECALL) =
        l.countP fun j => j.conn_info == c := by
  intro l
  induction l with
  | nil => intro h; rfl
  | cons j js ih =>
    intro h
    have hjs := ih fun x hx => h x (List.mem_cons_of_mem j hx)
    simp only [List.countP_cons, hjs]
    cases hc : (j.conn_info == c) with
    | false => simp [hc]
    | true =>
      have hop : j.operation = Operation.TRARECALL :=
        h j (List.mem_cons_self j js) (by exact beq_iff_eq.mp hc)
      simp [hc, hop]

/-- Every transparent-recall job with connection handle `c` in the store
gets exactly one response from the Phase D / shutdown-cleanup combination:
if the request was executed, `processFiles` responds for each claimed job
and deletes it, and `cleanupEvents` responds for every remaining one;
otherwise `cleanupEvents` responds for all of them. -/
theorem countResp_postAddJob (envOf : JobRow → RecallEnv) (fuel : Nat)
    (processed : Bool) (db : DB) (reqNum : Int) (tapeId : String) (c : Nat)
    (hside : ∀ j ∈ db.jobs, j.conn_info = c → j.operation = Operation.TRARECALL) :
    countResp c (postAddJob envOf fuel processed db reqNum tapeId) =
      db.jobs.countP fun j => j.conn_info == c := by
  unfold postAddJob
  cases processed with
  | false =>
    simp only [Bool.false_eq_true, if_false]
    rw [countResp_cleanupEvents]
    exact countP_conn_op c db.jobs hside
  | true =>
    simp only [if_true]
    have hdb2side : ∀ j ∈ (setRecalling
        (setRecalling db FileState.RECALLING_MIG reqNum FileState.MIGRATED tapeId)
        FileState.RECALLING_PREMIG reqNum FileState.PREMIGRATED tapeId).jobs,
        j.conn_info = c → j.operation = Operation.TRARECALL :=
      setRecalling_side _ _ _ _ _ c (setRecalling_side _ _ _ _ _ c hside)
    have hpfdb : (processFiles envOf fuel db reqNum tapeId).db =
        deleteJobs (setRecalling
          (setRecalling db FileState.RECALLING_MIG reqNum FileState.MIGRATED tapeId)
          FileState.RECALLING_PREMIG reqNum FileState.PREMIGRATED tapeId)
          reqNum tapeId := rfl
    have hsel : (processFiles envOf fuel db reqNum tapeId).selected =
        selectJobs (setRecalling
          (setRecalling db FileState.RECALLING_MIG reqNum FileState.MIGRATED tapeId)
          FileState.RECALLING_PREMIG reqNum FileState.PREMIGRATED tapeId)
          reqNum tapeId := rfl
    unfold countResp
    rw [List.countP_append]
    have h1 := countResp_processFiles envOf fuel db reqNum tapeId c
    unfold countResp at h1
    rw [h1, hsel, selectJobs_countP]
    have h2 := countResp_cleanupEvents (processFiles envOf fuel db reqNum tapeId).db c
    unfold countResp at h2
    rw [h2, hpfdb]
    unfold deleteJobs
    rw [List.countP_filter]
    have hsplit := countP_split_claimed reqNum tapeId c
      (setRecalling
        (setRecalling db FileState.RECALLING_MIG reqNum FileState.MIGRATED tapeId)
        FileState.RECALLING_PREMIG reqNum FileState.PREMIGRATED tapeId).jobs hdb2side
    rw [hsplit]
    rw [setRecalling_countP_conn, setRecalling_countP_conn]

theorem addJobTry_dropNotReg (env : AddJobEnv)
    (h : addJobTry env = AddJobTryOutcome.dropNotReg) :
    env.statOk = true ∧ env.isReg = false := by
  cases hs : env.statOk <;> cases hr : env.isReg <;>
    cases hm : env.migStateOk <;> cases ha : env.attrOk <;>
    cases htn : env.tapeNameOk <;>
    by_cases hres : env.migState = FileState.RESIDENT <;>
    simp [addJobTry, hs, hr, hm, ha, htn, hres] at h <;> simp

/-- Under the no-drop hypotheses, `addJob` either answers an already-resident
file with one success response and leaves the store alone, or silently
appends exactly one transparent-recall job row carrying the event's
connection handle. -/
theorem addJob_cases (env : AddJobEnv) (recinfo : RecInfo) (tapeId : String)
    (reqNum : Int) (db : DB)
    (hreg : env.statOk = true → env.isReg = true)
    (hins : env.insertOk = true) :
    addJob env recinfo tapeId reqNum db = ([Effect.respond recinfo true], db) ∨
    ∃ j : JobRow, j.conn_info = recinfo.conn_info ∧
      j.operation = Operation.TRARECALL ∧
      (addJob env recinfo tapeId reqNum db).1 = [Effect.signal] ∧
      (addJob env recinfo tapeId reqNum db).2.jobs = db.jobs ++ [j] := by
  rcases houtcome : addJobTry env with _ | _ | ⟨size, mtime, state, attrTape, tapeName⟩
  · obtain ⟨hs, hr⟩ := addJobTry_dropNotReg env houtcome
    rw [hreg hs] at hr
    exact absurd hr (by simp)
  · left
    unfold addJob
    rw [houtcome]
  · right
    refine ⟨addJobRow env recinfo tapeId reqNum size mtime state tapeName, rfl, rfl, ?_⟩
    unfold addJob
    rw [houtcome]
    simp only [hins, Bool.not_true, Bool.false_eq_true, if_false, ite_false]
    by_cases hck : checkRequestExists
        { db with jobs := db.jobs ++ [addJobRow env recinfo tapeId reqNum size mtime state tapeName] }
        reqNum <;>
      simp [hck, changeRequestToNew]

/-- C1 (amended): an accepted event (non-null handle, nonzero inode) whose
lifecycle avoids the two silent-drop paths — the non-regular-file drop in
`addJob` and a throwing job insert — receives exactly one response, counting
the receiver's immediate responses, `addJob`'s already-resident response,
the Phase D responses of `processFiles`, and the shutdown `cleanupEvents`
pass.  `hdb` says no job of another event shares this connection handle. -/
theorem eventLifecycle_one_response (renv : RecvEnv) (aenv : AddJobEnv)
    (envOf : JobRow → RecallEnv) (fuel : Nat) (reqNum : Int) (processed : Bool)
    (db : DB) (e : RecInfo)
    (hc : e.conn_info ≠ 0) (hi : e.fuid.inum ≠ 0)
    (hdb : ∀ j ∈ db.jobs, j.conn_info ≠ e.conn_info)
    (hreg : aenv.statOk = true → aenv.isReg = true)
    (hins : aenv.insertOk = true) :
    countResp e.conn_info
      (eventLifecycle renv aenv envOf fuel reqNum processed db e).1 = 1 := by
  have hself : isRespondTo e.conn_info (Effect.respond e true) = true := by
    simp [isRespondTo]
  have hselff : isRespondTo e.conn_info (Effect.respond e false) = true := by
    simp [isRespondTo]
  cases ht : renv.terminate
  case true =>
    unfold eventLifecycle runStep
    simp [hc, ht, countResp, isRespondTo]
  case false =>
  cases hm : renv.migReadOk
  case false =>
    unfold eventLifecycle runStep
    simp [hc, ht, hi, hm, countResp, isRespondTo]
  case true =>
  by_cases hres : renv.migState = FileState.RESIDENT
  case pos =>
    cases hfin : renv.finishOk <;>
      (unfold eventLifecycle runStep
       simp [hc, ht, hi, hm, hres, hfin, countResp, isRespondTo])
  case neg =>
  cases ha : renv.attrOk
  case false =>
    unfold eventLifecycle runStep
    simp [hc, ht, hi, hm, hres, ha, countResp, isRespondTo]
  case true =>
    have hrun : runStep renv e = ([], some renv.attrTape) := by
      unfold runStep
      simp [hc, ht, hi, hm, hres, ha]
    have hlife : (eventLifecycle renv aenv envOf fuel reqNum processed db e).1 =
        [] ++ (addJob aenv e renv.attrTape reqNum db).1 ++
          postAddJob envOf fuel processed (addJob aenv e renv.attrTape reqNum db).2
            reqNum renv.attrTape := by
      unfold eventLifecycle
      rw [hrun]
    rw [hlife]
    rcases addJob_cases aenv e renv.attrTape reqNum db hreg hins with hcase | hcase
    · rw [hcase]
      have hdbside : ∀ j ∈ db.jobs, j.conn_info = e.conn_info →
          j.operation = Operation.TRARECALL := fun j hj hcc => absurd hcc (hdb j hj)
      have hpost := countResp_postAddJob envOf fuel processed db reqNum
        renv.attrTape e.conn_info hdbside
      have hzero : db.jobs.countP (fun j => j.conn_info == e.conn_info) = 0 :=
        List.countP_eq_zero.mpr fun j hj => by simp [hdb j hj]
      unfold countResp at hpost ⊢
      rw [List.countP_append, List.countP_append]
      simp [hself, hpost, hzero]
    · obtain ⟨j, hjc, hjop, heff, hjobs⟩ := hcase
      set a := addJob aenv e renv.attrTape reqNum db with ha2
      have hside : ∀ x ∈ a.2.jobs, x.conn_info = e.conn_info →
          x.operation = Operation.TRARECALL := by
        intro x hx
        rw [hjobs] at hx
        rcases List.mem_append.mp hx with hx | hx
        · exact fun hcc => absurd hcc (hdb x hx)
        · rcases List.mem_singleton.mp hx with rfl
          exact fun _ => hjop
      have hpost := countResp_postAddJob envOf fuel processed a.2 reqNum
        renv.attrTape e.conn_info hside
      have hcount : a.2.jobs.countP (fun x => x.conn_info == e.conn_info) = 1 := by
        rw [hjobs, List.countP_append]
        have hzero : db.jobs.countP (fun x => x.conn_info == e.conn_info) = 0 :=
          List.countP_eq_zero.mpr fun x hx => by simp [hdb x hx]
        simp [hzero, hjc]
      unfold countResp at hpost ⊢
      rw [List.countP_append, List.countP_append, heff, hpost, hcount]
      simp [isRespondTo]

/-- A receiver oracle on the normal path: not terminating, file migrated,
attribute read succeeds with tape `T1`. -/
def recvOkEnv : RecvEnv where
  terminate := false
  migReadOk := true
  migState := FileState.MIGRATED
  finishOk := true
  attrOk := true
  attrTape := "T1"

/-- An `addJob` oracle whose stat succeeds but reports a non-regular file. -/
def notRegEnv : AddJobEnv := { attrDriftEnv with isReg := false }

/-- The accepted event of the C1 scenarios (inode 44, handle 9). -/
def eventC1 : RecInfo := ⟨⟨1, 1, 1, 44⟩, "h", true, 9⟩

/-- C1 counterexample: an accepted event (non-null handle, nonzero inode)
for a non-regular file is dropped by `addJob` (TransRecall.cc lines 122-125)
with no job row, so neither `processFiles` nor `cleanupEvents` ever answers
it: zero responses over its whole lifetime, not exactly one. -/
theorem eventLifecycle_counterexample :
    (eventC1.conn_info ≠ 0 ∧ eventC1.fuid.inum ≠ 0) ∧
    countResp eventC1.conn_info
      (eventLifecycle recvOkEnv notRegEnv nullEnvOf 1 1 false ⟨[], []⟩ eventC1).1 = 0 := by
  decide

/-- Witness for `eventLifecycle_one_response`: the normal migrated-file path
delivers exactly one response. -/
theorem eventLifecycle_one_response_witness :
    countResp eventC1.conn_info
      (eventLifecycle recvOkEnv attrDriftEnv nullEnvOf 1 1 true ⟨[], []⟩ eventC1).1 = 1 :=
  eventLifecycle_one_response recvOkEnv attrDriftEnv nullEnvOf 1 1 true ⟨[], []⟩
    eventC1 (by decide) (by decide) (by intro j hj; cases hj) (fun _ => rfl) rfl

/-- C7: an accepted event whose file is already `RESIDENT` when the receiver
opens it is finalised as resident and answered success immediately, and the
store is left untouched: no job row and no request row is created for it. -/
theorem run_resident_immediate (renv : RecvEnv) (aenv : AddJobEnv)
    (envOf : JobRow → RecallEnv) (fuel : Nat) (reqNum : Int) (processed : Bool)
    (db : DB) (e : RecInfo)
    (hc : e.conn_info ≠ 0) (ht : renv.terminate = false) (hi : e.fuid.inum ≠ 0)
    (hm : renv.migReadOk = true) (hres : renv.migState = FileState.RESIDENT)
    (hfin : renv.finishOk = true) :
    eventLifecycle renv aenv envOf fuel reqNum processed db e =
      ([Effect.finishRec FileState.RESIDENT, Effect.respond e true], db) := by
  unfold eventLifecycle runStep
  simp [hc, ht, hi, hm, hres, hfin]

/-- Receiver oracle observing an already-resident file. -/
def residentRecvEnv : RecvEnv := { recvOkEnv with migState := FileState.RESIDENT }

/-- The event of the C7 witness (inode 45, handle 10). -/
def eventC7 : RecInfo := ⟨⟨1, 1, 1, 45⟩, "r", true, 10⟩

/-- Witness for `run_resident_immediate` on a concrete already-resident
event: finalisation plus one success response, store unchanged. -/
theorem run_resident_immediate_witness :
    eventLifecycle residentRecvEnv attrDriftEnv nullEnvOf 1 1 false ⟨[], []⟩ eventC7 =
      ([Effect.finishRec FileState.RESIDENT, Effect.respond eventC7 true], ⟨[], []⟩) :=
  run_resident_immediate residentRecvEnv attrDriftEnv nullEnvOf 1 1 false ⟨[], []⟩
    eventC7 (by decide) rfl (by decide) rfl rfl rfl
